import Mathlib

/-
Verification of the credential lifecycle and authenticated-request retry
protocol of a Spotify web client.

Shallow embedding notes:
  * Browser-local storage is modelled by the structure `Store`, one field per
    key the credential code touches (`access_token`, `refresh_token`,
    `expires_in`, `expires`, `code_verifier`).  String-rendered numbers and
    ISO-8601 instants are modelled by their numeric content (milliseconds
    since the epoch for instants); the rendering is an injective codec the
    code never inspects.
  * `localStorage.getItem` returns `null` or a string; JavaScript truthiness
    (`if (!x)`) treats both `null` and the empty string as false, captured by
    `jsTruthy` and `jsFalsy` on `Option String`.
  * Each network call is a suspension point whose outcome is nondeterministic;
    the outcome of the single token-exchange call an operation may make is
    passed in as a `FetchOutcome` value.  JavaScript exceptions are modelled by
    `Except`: a thrown error is `Except.error`, a `try`/`catch` is a `match`
    on the callee result whose error arm is the catch block.
  * Functions additionally return the post-state of the store and the number
    of token-exchange network calls they issued on the executed path.
-/

namespace SpotifyClient

/-- Browser-local storage restricted to the keys the credential code uses.
`expires_in` holds the decimal content of the stored validity-duration string
(seconds); `expires` holds the instant encoded by the stored ISO-8601 string,
in milliseconds since the epoch. -/
structure Store where
  access_token : Option String
  refresh_token : Option String
  expires_in : Option Nat
  expires : Option Nat
  code_verifier : Option String
deriving DecidableEq, Repr

/-- Body of a successful token-endpoint response, as consumed by the client:
`access_token`, optional rotated `refresh_token`, and `expires_in` seconds. -/
structure TokenResponse where
  access_token : String
  refresh_token : Option String
  expires_in : Nat
deriving DecidableEq, Repr

/-- JavaScript truthiness of a `localStorage.getItem` result: `null` and the
empty string are falsy, every other string is truthy. -/
def jsTruthy : Option String → Bool
  | none => false
  | some s => s != ""

/-- JavaScript falsiness (`!x`) of a `localStorage.getItem` result. -/
def jsFalsy (o : Option String) : Bool := !(jsTruthy o)

/-- The fixed safety buffer of `isTokenExpired`: 5 minutes in milliseconds
(`5 * 60 * 1000` in the source). -/
def refreshBufferMs : Nat := 5 * 60 * 1000

/-- Embedding of `isTokenExpired` (src/utils/tokenUtils): reads `expires`; if
absent, the token counts as expired; otherwise expired iff the stored instant
is at or before now plus the 5-minute buffer (`expires <= fiveMinutesFromNow`). -/
def isTokenExpired (store : Store) (now : Nat) : Bool :=
  match store.expires with
  | none => true
  | some e => decide (e ≤ now + refreshBufferMs)

/-- Outcome of one `fetch` to the token endpoint: a network-level error, or an
HTTP reply with a status and (for the arms that read it) a parsed body. -/
inductive FetchOutcome where
  | netError (msg : String)
  | reply (status : Nat) (body : TokenResponse)
deriving DecidableEq, Repr

/-- Error thrown by the token-exchange helper. -/
inductive ExErr where
  | network (msg : String)
  | httpStatus (status : Nat)
deriving DecidableEq, Repr

/-- The `Response.ok` predicate of `fetch`: status in the 200-299 range. -/
def fetchOk (status : Nat) : Bool := decide (200 ≤ status) && decide (status < 300)

/-- Modelled from the spec: the token-exchange function `getRefreshToken` of
`src/api/auth/service/auth.service` is not among the provided sources (only its
callers and its test suite are).  Per spec sections 4.2 and 6 it posts the
refresh grant to the token endpoint and, on a network error or a non-success
HTTP status, throws; on success it yields the parsed token response. -/
def getRefreshToken (net : FetchOutcome) : Except ExErr TokenResponse :=
  match net with
  | FetchOutcome.netError m => Except.error (ExErr.network m)
  | FetchOutcome.reply status body =>
    if fetchOk status then Except.ok body else Except.error (ExErr.httpStatus status)

/-- The four `localStorage.removeItem` calls of the refresh failure path:
`access_token`, `refresh_token`, `expires_in` and `expires` are removed,
everything else is untouched. -/
def clearTokens (store : Store) : Store :=
  { store with access_token := none, refresh_token := none,
               expires_in := none, expires := none }

/-- The `localStorage.setItem` calls of the refresh success path: writes the
new access token, its validity duration, and the expiry instant
`Date.now() + expires_in * 1000`; overwrites the refresh token only when the
response carries a truthy one (`if (tokenResponse.refresh_token)`). -/
def storeAfterRefreshSuccess (store : Store) (now : Nat) (tr : TokenResponse) : Store :=
  let s1 : Store :=
    { store with access_token := some tr.access_token,
                 expires_in := some tr.expires_in,
                 expires := some (now + tr.expires_in * 1000) }
  if jsTruthy tr.refresh_token then { s1 with refresh_token := tr.refresh_token } else s1

/-- Embedding of `refreshAccessToken` (src/utils/tokenUtils).  Reads
`refresh_token`; if falsy, logs and returns `null` with no network call.
Otherwise awaits the token exchange inside a `try`: on success it performs the
success-path writes and returns the new access token; the `catch` arm clears
the four credential keys and returns `null`.  Result: the (never-throwing)
returned value, the post-state of storage, and the number of token-exchange
calls issued. -/
def refreshAccessToken (store : Store) (now : Nat) (net : FetchOutcome) :
    Except ExErr (Option String) × Store × Nat :=
  if jsFalsy store.refresh_token then (Except.ok none, store, 0)
  else
    match getRefreshToken net with
    | Except.ok tr =>
        (Except.ok (some tr.access_token), storeAfterRefreshSuccess store now tr, 1)
    | Except.error _e => (Except.ok none, clearTokens store, 1)

/-- Embedding of `getValidAccessToken` (src/utils/tokenUtils).  Reads
`access_token`; if falsy, returns `null`.  If the stored token is expired per
`isTokenExpired`, the result is that of `refreshAccessToken`; otherwise the
stored token is returned unchanged with no network call. -/
def getValidAccessToken (store : Store) (now : Nat) (net : FetchOutcome) :
    Except ExErr (Option String) × Store × Nat :=
  if jsFalsy store.access_token then (Except.ok none, store, 0)
  else if isTokenExpired store now then refreshAccessToken store now net
  else (Except.ok store.access_token, store, 0)

/-- Error thrown by the authorization-code exchange. -/
inductive AuthErr where
  | missingVerifier
  | network (msg : String)
  | tokenExchangeFailed (status : Nat)
deriving DecidableEq, Repr

/-- Modelled from the spec: `getToken`, the Authorization Completer of
`src/api/auth/service/auth.service`, is not among the provided sources (only
its test suite is).  Per spec section 4.5 and the test suite it first reads
`code_verifier` from storage and, when that is absent, throws a
missing-verifier error before any network call; otherwise it posts the
authorization-code grant once: a network error propagates, a non-success HTTP
status throws a token-exchange failure, and a success yields the parsed token
response.  The second component counts the network calls issued. -/
def getToken (store : Store) (_code : String) (net : FetchOutcome) :
    Except AuthErr TokenResponse × Nat :=
  if jsFalsy store.code_verifier then (Except.error AuthErr.missingVerifier, 0)
  else
    match net with
    | FetchOutcome.netError m => (Except.error (AuthErr.network m), 1)
    | FetchOutcome.reply status body =>
      if fetchOk status then (Except.ok body, 1)
      else (Except.error (AuthErr.tokenExchangeFailed status), 1)

/-- Outcome of one underlying HTTP issue by the axios instance: a resolved
response body, or a rejection whose error carries `error.response?.status`
(absent for transport-level failures). -/
inductive HttpResult where
  | success (body : String)
  | failure (status : Option Nat)
deriving DecidableEq, Repr

/-- The mutable per-request state the interceptor sees: the `_retry` marker on
the request config and the `Authorization` header value. -/
structure ReqConfig where
  retry : Bool
  auth : String
deriving DecidableEq, Repr

/-- Observable outcome of a Request Gateway call: the settled promise (body or
rejected error status), how many times the underlying request was issued, and
whether a navigation to `/login` was triggered. -/
structure GatewayOutcome where
  result : Except (Option Nat) String
  attempts : Nat
  navigated : Bool
deriving Repr

/-- The `Authorization` header value for a token. -/
def bearer (tok : String) : String := "Bearer " ++ tok

/-- Embedding of the `SpotifyApiClient` response interceptor
(src/api/spotify/base.service.ts).  `transport k h` is the transport's answer
to the k-th issue of the request when sent with `Authorization` header `h`;
`tok` is the value the awaited `getValidAccessToken()` call yields.  A
resolved response is returned as is.  On a rejection with status 401 and no
`_retry` marker, the marker is set and: with a token, the header is updated
and the request re-issued through the same interceptor; with `null`, a
navigation to `/login` is triggered and the original error is re-rejected.
Every other rejection, including a 401 on a marked request, is re-rejected
unchanged. -/
def runRequest (transport : Nat → String → HttpResult) (tok : Option String)
    (cfg : ReqConfig) (k : Nat) : GatewayOutcome :=
  match transport k cfg.auth with
  | HttpResult.success b => ⟨Except.ok b, k + 1, false⟩
  | HttpResult.failure st =>
    if h : st = some 401 ∧ cfg.retry = false then
      match tok with
      | some t => runRequest transport tok ⟨true, bearer t⟩ (k + 1)
      | none => ⟨Except.error st, k + 1, true⟩
    else ⟨Except.error st, k + 1, false⟩
termination_by (if cfg.retry then 0 else 1)
decreasing_by simp [h.2]

/-- An axios rejection as inspected by the playback service:
`error.response?.status` together with the rest of the error object. -/
structure ApiError where
  message : String
  responseStatus : Option Nat
deriving DecidableEq, Repr

/-- Embedding of `PlaybackService.getCurrentPlayback`: awaits the wrapped GET
of `/me/player` inside a `try`; a rejection whose `error.response?.status` is
204 resolves to `null` (no active device), any other rejection is rethrown. -/
def getCurrentPlayback {α : Type} (res : Except ApiError α) : Except ApiError (Option α) :=
  match res with
  | Except.ok v => Except.ok (some v)
  | Except.error e =>
    if e.responseStatus = some 204 then Except.ok none else Except.error e

/-- Embedding of `PlaybackService.getCurrentlyPlaying`: awaits the wrapped GET
of `/me/player/currently-playing` inside a `try`; a rejection whose
`error.response?.status` is 204 resolves to `null` (no track currently
playing), any other rejection is rethrown. -/
def getCurrentlyPlaying {α : Type} (res : Except ApiError α) : Except ApiError (Option α) :=
  match res with
  | Except.ok v => Except.ok (some v)
  | Except.error e =>
    if e.responseStatus = some 204 then Except.ok none else Except.error e

/-- Unfolding of `runRequest` for a request already carrying the `_retry`
marker: the outcome of the single issue is returned as is; in particular a 401
is rejected without a further attempt. -/
lemma runRequest_retry_true (transport : Nat → String → HttpResult)
    (tok : Option String) (hdr : String) (k : Nat) :
    runRequest transport tok ⟨true, hdr⟩ k =
      match transport k hdr with
      | HttpResult.success b => ⟨Except.ok b, k + 1, false⟩
      | HttpResult.failure st => ⟨Except.error st, k + 1, false⟩ := by
  rw [runRequest]
  rcases transport k hdr with b | st <;> simp

/-- C1: for every originating request the gateway issues the underlying HTTP
request at most twice; when a not-yet-retried request gets a 401 and the
Credential Accessor yields a token, the request is retried exactly once, and a
second 401 on the marked request is propagated to the caller with no third
attempt. -/
theorem c1_gateway_at_most_two_attempts (transport : Nat → String → HttpResult)
    (tok : Option String) (hdr : String) :
    (runRequest transport tok ⟨false, hdr⟩ 0).attempts ≤ 2 ∧
    (∀ t, tok = some t →
      transport 0 hdr = HttpResult.failure (some 401) →
      transport 1 (bearer t) = HttpResult.failure (some 401) →
      runRequest transport tok ⟨false, hdr⟩ 0 =
        ⟨Except.error (some 401), 2, false⟩) := by
  constructor
  · rw [runRequest]
    rcases transport 0 hdr with b | st
    · simp
    · rcases tok with _ | t
      · by_cases h4 : st = some 401
        · subst h4; simp
        · simp [h4]
      · by_cases h4 : st = some 401
        · subst h4
          simp only [eq_self_iff_true, true_and]
          simp
          rw [runRequest_retry_true]
          rcases transport 1 (bearer t) with b2 | st2 <;> simp
        · simp [h4]
  · intro t ht h0 h1
    subst ht
    rw [runRequest]
    simp [h0]
    rw [runRequest_retry_true]
    simp [h1]

/-- Witness for C1: with a transport that answers 401 to every attempt and an
available replacement token, the gateway issues exactly two attempts and
rejects with the 401 error. -/
theorem c1_witness :
    (runRequest (fun _ _ => HttpResult.failure (some 401)) (some "t2")
      ⟨false, "Bearer a"⟩ 0).attempts ≤ 2 ∧
    runRequest (fun _ _ => HttpResult.failure (some 401)) (some "t2")
      ⟨false, "Bearer a"⟩ 0 = ⟨Except.error (some 401), 2, false⟩ :=
  ⟨(c1_gateway_at_most_two_attempts _ _ _).1,
   (c1_gateway_at_most_two_attempts _ _ _).2 "t2" rfl rfl rfl⟩

/-- C2: for every stored expiry instant `e`, `isTokenExpired` returns true
exactly when now is at or past `e` minus the 5-minute buffer (the boundary
counts as expired), and it returns true when no expiry instant is stored. -/
theorem c2_expiry_evaluator (store : Store) (now : Nat) :
    (∀ e, store.expires = some e →
      (isTokenExpired store now = true ↔ e - refreshBufferMs ≤ now)) ∧
    (store.expires = none → isTokenExpired store now = true) := by
  constructor
  · intro e he
    simp only [isTokenExpired, he, decide_eq_true_eq, refreshBufferMs]
    omega
  · intro he
    simp [isTokenExpired, he]

/-- Witness for C2: at the boundary instant (expiry 600000 ms, now exactly 5
minutes earlier) the evaluator reports expired, and with no stored instant it
reports expired. -/
theorem c2_witness :
    (isTokenExpired ⟨some "abc", none, none, some 600000, none⟩ 300000 = true ↔
      600000 - refreshBufferMs ≤ 300000) ∧
    isTokenExpired ⟨some "abc", none, none, none, none⟩ 300000 = true :=
  ⟨(c2_expiry_evaluator _ _).1 600000 rfl, (c2_expiry_evaluator _ _).2 rfl⟩

/-- C3: when the token-exchange call fails (network error or non-success HTTP
status), `refreshAccessToken` returns `null` and afterwards all four
credential keys — `access_token`, `refresh_token`, `expires_in`, `expires` —
are absent from storage, regardless of their prior values. -/
theorem c3_refresh_failure_clears (store : Store) (now : Nat) (net : FetchOutcome)
    (hrt : jsTruthy store.refresh_token = true)
    (hfail : ∃ e, getRefreshToken net = Except.error e) :
    refreshAccessToken store now net = (Except.ok none, clearTokens store, 1) ∧
    (clearTokens store).access_token = none ∧
    (clearTokens store).refresh_token = none ∧
    (clearTokens store).expires_in = none ∧
    (clearTokens store).expires = none := by
  obtain ⟨e, he⟩ := hfail
  refine ⟨?_, rfl, rfl, rfl, rfl⟩
  simp [refreshAccessToken, jsFalsy, hrt, he]

/-- Witness for C3: a refresh against an HTTP 400 reply yields `null` and the
cleared store. -/
theorem c3_witness :
    refreshAccessToken ⟨some "abc", some "r1", some 3600, some 0, none⟩ 5000
      (FetchOutcome.reply 400 ⟨"x", none, 0⟩) =
    (Except.ok none, clearTokens ⟨some "abc", some "r1", some 3600, some 0, none⟩, 1) :=
  (c3_refresh_failure_clears ⟨some "abc", some "r1", some 3600, some 0, none⟩ 5000
    (FetchOutcome.reply 400 ⟨"x", none, 0⟩) (by decide)
    ⟨ExErr.httpStatus 400, rfl⟩).1

/-- C4: `getValidAccessToken` returns `null` when no access credential is
stored; a stored, unexpired credential is returned unchanged with no network
call; a stored but expired credential makes the result exactly that of
`refreshAccessToken`. -/
theorem c4_credential_accessor (store : Store) (now : Nat) (net : FetchOutcome) :
    (store.access_token = none →
      getValidAccessToken store now net = (Except.ok none, store, 0)) ∧
    (jsTruthy store.access_token = true → isTokenExpired store now = false →
      getValidAccessToken store now net = (Except.ok store.access_token, store, 0)) ∧
    (jsTruthy store.access_token = true → isTokenExpired store now = true →
      getValidAccessToken store now net = refreshAccessToken store now net) := by
  refine ⟨?_, ?_, ?_⟩
  · intro h
    simp [getValidAccessToken, jsFalsy, jsTruthy, h]
  · intro ht he
    simp [getValidAccessToken, jsFalsy, ht, he]
  · intro ht he
    simp [getValidAccessToken, jsFalsy, ht, he]

/-- Witness for C4: the three branches at concrete stores — empty store,
token valid for 10 more minutes, and token expired. -/
theorem c4_witness :
    getValidAccessToken ⟨none, none, none, none, none⟩ 0 (FetchOutcome.netError "down") =
      (Except.ok none, ⟨none, none, none, none, none⟩, 0) ∧
    getValidAccessToken ⟨some "abc", none, none, some 1900000, none⟩ 1000000
      (FetchOutcome.netError "down") =
      (Except.ok (some "abc"), ⟨some "abc", none, none, some 1900000, none⟩, 0) ∧
    getValidAccessToken ⟨some "abc", some "r1", none, some 0, none⟩ 1000000
      (FetchOutcome.netError "down") =
      refreshAccessToken ⟨some "abc", some "r1", none, some 0, none⟩ 1000000
        (FetchOutcome.netError "down") :=
  ⟨(c4_credential_accessor _ _ _).1 rfl,
   (c4_credential_accessor _ _ _).2.1 (by decide) (by decide),
   (c4_credential_accessor _ _ _).2.2 (by decide) (by decide)⟩

/-- C5: on a successful exchange, `refreshAccessToken` writes the new access
credential, the new validity duration and the expiry instant now plus
`expires_in` seconds, and it overwrites the stored refresh credential only
when the response carries a (truthy) one: when the response holds no refresh
credential the stored one is left unchanged. -/
theorem c5_refresh_success_writes (store : Store) (now : Nat) (status : Nat)
    (tr : TokenResponse)
    (hrt : jsTruthy store.refresh_token = true)
    (hok : fetchOk status = true) :
    refreshAccessToken store now (FetchOutcome.reply status tr) =
      (Except.ok (some tr.access_token), storeAfterRefreshSuccess store now tr, 1) ∧
    (storeAfterRefreshSuccess store now tr).access_token = some tr.access_token ∧
    (storeAfterRefreshSuccess store now tr).expires_in = some tr.expires_in ∧
    (storeAfterRefreshSuccess store now tr).expires = some (now + tr.expires_in * 1000) ∧
    (tr.refresh_token = none →
      (storeAfterRefreshSuccess store now tr).refresh_token = store.refresh_token) ∧
    (jsTruthy tr.refresh_token = false →
      (storeAfterRefreshSuccess store now tr).refresh_token = store.refresh_token) ∧
    (jsTruthy tr.refresh_token = true →
      (storeAfterRefreshSuccess store now tr).refresh_token = tr.refresh_token) := by
  refine ⟨?_, ?_, ?_, ?_, ?_, ?_, ?_⟩
  · simp [refreshAccessToken, jsFalsy, hrt, getRefreshToken, hok]
  · by_cases hx : jsTruthy tr.refresh_token <;> simp [storeAfterRefreshSuccess, hx]
  · by_cases hx : jsTruthy tr.refresh_token <;> simp [storeAfterRefreshSuccess, hx]
  · by_cases hx : jsTruthy tr.refresh_token <;> simp [storeAfterRefreshSuccess, hx]
  · intro hnone
    simp [storeAfterRefreshSuccess, hnone, jsTruthy]
  · intro hfalse
    simp [storeAfterRefreshSuccess, hfalse]
  · intro htrue
    simp [storeAfterRefreshSuccess, htrue]

/-- Witness for C5: refreshing with reply `{access_token := xyz, expires_in
:= 3600}` (no rotated refresh token) at now = 5000 ms writes the new token,
expiry 3605000 ms, and keeps the stored refresh token `r1`. -/
theorem c5_witness :
    refreshAccessToken ⟨some "abc", some "r1", none, some 0, some "v"⟩ 5000
      (FetchOutcome.reply 200 ⟨"xyz", none, 3600⟩) =
    (Except.ok (some "xyz"), ⟨some "xyz", some "r1", some 3600, some 3605000, some "v"⟩, 1) := by
  have h := (c5_refresh_success_writes ⟨some "abc", some "r1", none, some 0, some "v"⟩
    5000 200 ⟨"xyz", none, 3600⟩ (by decide) (by decide)).1
  simpa [storeAfterRefreshSuccess, jsTruthy] using h

/-- C6: a first-occurrence 401 for which the Credential Accessor yields
`null` triggers the navigation to `/login` and the promise still rejects with
the original 401 error. -/
theorem c6_login_redirect (transport : Nat → String → HttpResult) (hdr : String)
    (h0 : transport 0 hdr = HttpResult.failure (some 401)) :
    runRequest transport none ⟨false, hdr⟩ 0 =
      ⟨Except.error (some 401), 1, true⟩ := by
  rw [runRequest]
  simp [h0]

/-- Witness for C6: a 401 with no obtainable token navigates to login and
rejects after a single attempt. -/
theorem c6_witness :
    runRequest (fun _ _ => HttpResult.failure (some 401)) none ⟨false, "Bearer a"⟩ 0 =
      ⟨Except.error (some 401), 1, true⟩ :=
  c6_login_redirect _ _ rfl

/-- C7: with no refresh credential in storage, `refreshAccessToken` returns
`null`, leaves the store untouched, and issues zero token-exchange calls. -/
theorem c7_missing_refresh_credential (store : Store) (now : Nat) (net : FetchOutcome)
    (h : store.refresh_token = none) :
    refreshAccessToken store now net = (Except.ok none, store, 0) := by
  simp [refreshAccessToken, jsFalsy, jsTruthy, h]

/-- Witness for C7: a store holding an access token but no refresh token. -/
theorem c7_witness :
    refreshAccessToken ⟨some "abc", none, some 3600, some 0, none⟩ 5000
      (FetchOutcome.netError "down") =
    (Except.ok none, ⟨some "abc", none, some 3600, some 0, none⟩, 0) :=
  c7_missing_refresh_credential _ _ _ rfl

/-- C8: invoking `getToken` with no `code_verifier` in storage fails with the
missing-verifier error and issues zero network calls. -/
theorem c8_missing_verifier (store : Store) (code : String) (net : FetchOutcome)
    (h : store.code_verifier = none) :
    getToken store code net = (Except.error AuthErr.missingVerifier, 0) := by
  simp [getToken, jsFalsy, jsTruthy, h]

/-- Witness for C8: an empty store makes `getToken` fail before any fetch. -/
theorem c8_witness :
    getToken ⟨none, none, none, none, none⟩ "auth-code"
      (FetchOutcome.reply 200 ⟨"tok", none, 3600⟩) =
    (Except.error AuthErr.missingVerifier, 0) :=
  c8_missing_verifier _ _ _ rfl

/-- C9: a wrapped playback call whose rejection carries HTTP status 204
resolves to `null` rather than an error, for both `getCurrentPlayback` and
`getCurrentlyPlaying`. -/
theorem c9_no_content_yields_null (α : Type) (e : ApiError)
    (h : e.responseStatus = some 204) :
    getCurrentPlayback (α := α) (Except.error e) = Except.ok none ∧
    getCurrentlyPlaying (α := α) (Except.error e) = Except.ok none := by
  constructor <;> simp [getCurrentPlayback, getCurrentlyPlaying, h]

/-- Witness for C9: the concrete no-content rejection resolves both wrapped
calls to `null`. -/
theorem c9_witness :
    getCurrentPlayback (α := Nat) (Except.error ⟨"No Content", some 204⟩) = Except.ok none ∧
    getCurrentlyPlaying (α := Nat) (Except.error ⟨"No Content", some 204⟩) = Except.ok none :=
  c9_no_content_yields_null Nat ⟨"No Content", some 204⟩ rfl

/-- C10: `refreshAccessToken` and `getValidAccessToken` never propagate an
exception — for every storage state and every outcome of the token-exchange
call, including a thrown network error, each settles with a value (a token
string or `null`). -/
theorem c10_no_exception_escapes (store : Store) (now : Nat) (net : FetchOutcome) :
    (∃ o, (refreshAccessToken store now net).1 = Except.ok o) ∧
    (∃ o, (getValidAccessToken store now net).1 = Except.ok o) := by
  have hR : ∃ o, (refreshAccessToken store now net).1 = Except.ok o := by
    by_cases h : jsFalsy store.refresh_token = true
    · exact ⟨none, by simp [refreshAccessToken, h]⟩
    · cases hg : getRefreshToken net with
      | ok tr => exact ⟨some tr.access_token, by simp [refreshAccessToken, h, hg]⟩
      | error e => exact ⟨none, by simp [refreshAccessToken, h, hg]⟩
  refine ⟨hR, ?_⟩
  by_cases ha : jsFalsy store.access_token = true
  · exact ⟨none, by simp [getValidAccessToken, ha]⟩
  · by_cases he : isTokenExpired store now = true
    · obtain ⟨o, ho⟩ := hR
      refine ⟨o, ?_⟩
      simpa [getValidAccessToken, ha, he] using ho
    · exact ⟨store.access_token, by simp [getValidAccessToken, ha, he]⟩

end SpotifyClient
